import Mathlib

/-!
Verification of the askRiti retrieval facade.

The repository has two files: `api/main.py` builds a retrieval client over an
external vector index (a `CitationQueryEngine` configured with
`citation_chunk_size = 1024` and `similarity_top_k = 5`) and exposes two
operations: `main` (raw retrieve: map each returned chunk to a flat record)
and `search_documents` (ask the service to synthesize an answer with
citations). `api/server.py` wires only `main` to a single FastAPI route
`POST /regsearch` with a pydantic request model holding one required string
field `query`.

The external retrieval service is modelled as an oracle: a pair of functions
from a query string to either a failure or a response. Every operation of the
repository is a pure function of that oracle, the query, and a diagnostic
output trace (the list of strings written by `print`).
-/

namespace AskRiti

/-- A chunk returned by the external retrieval service: its raw text
(`node.node.get_text()`) and its metadata dictionary (`node.metadata`),
modelled as an association list of string keys to string values. -/
structure Node where
  text : String
  metadata : List (String × String)
deriving DecidableEq, Repr

/-- Dictionary lookup on node metadata: `node.metadata[key]` in Python,
except that in this model the failure is an `Option` instead of a raised
`KeyError`; `mkRecord` below turns `none` into the error. -/
def Node.getMeta (n : Node) (k : String) : Option String :=
  (n.metadata.find? (fun p => p.1 == k)).map Prod.snd

/-- The Retrieved Record shape built by `main` in `api/main.py` and declared
as `DocumentResponse` in `api/server.py`. -/
structure Record where
  url : String
  title : String
  content : String
  published_date : String
  author : String
deriving DecidableEq, Repr

/-- Failure of a call to the external retrieval service. -/
inductive RetrievalError where
  | serviceFailure (msg : String)
deriving DecidableEq, Repr

/-- Failures that `main` can propagate: a retrieval-service failure, or a
`KeyError` from an unguarded metadata dictionary lookup. -/
inductive MainError where
  | retrieval (e : RetrievalError)
  | keyError (k : String)
deriving DecidableEq, Repr

/-- The response of `query_engine.aquery`: the synthesized answer text and
the cited source chunks (`response.source_nodes`). -/
structure QueryResponse where
  response : String
  source_nodes : List Node
deriving DecidableEq, Repr

/-- The external query engine, modelled as an oracle with the two entry
points the repository calls: `aretrieve` (raw nearest-neighbour chunks) and
`aquery` (synthesized answer plus cited chunks). -/
structure QueryEngine where
  aretrieve : String → Except RetrievalError (List Node)
  aquery : String → Except RetrievalError QueryResponse

/-- The fixed arguments passed to `CitationQueryEngine.from_args` in
`api/main.py`: `citation_chunk_size=1024, similarity_top_k=5`. -/
structure CitationQueryEngineArgs where
  citation_chunk_size : Nat
  similarity_top_k : Nat
deriving DecidableEq, Repr

/-- The configuration constants of the query engine built at module load. -/
def query_engine_args : CitationQueryEngineArgs :=
  { citation_chunk_size := 1024, similarity_top_k := 5 }

/-- Building one record of the response list in the loop body of `main`:
```
response.append({
    "url": node.metadata[\x7b file_path \x7d ...],
    "title": "",
    "content": node.node.get_text(),
    "published_date": node.metadata[...],
    "author": "cdsco"
})
```
The two metadata lookups are unguarded; a missing key raises `KeyError`. -/
def mkRecord (node : Node) : Except MainError Record :=
  match node.getMeta "file_path" with
  | none => .error (.keyError "file_path")
  | some fp =>
    match node.getMeta "last_modified_date" with
    | none => .error (.keyError "last_modified_date")
    | some lm =>
      .ok { url := fp, title := "", content := node.text,
            published_date := lm, author := "cdsco" }

/-- The `for node in retrieved_nodes` loop of `main`: builds the records in
order; a `KeyError` anywhere aborts the whole call. -/
def buildRecords : List Node → Except MainError (List Record)
  | [] => .ok []
  | n :: ns =>
    match mkRecord n with
    | .error e => .error e
    | .ok r =>
      match buildRecords ns with
      | .error e => .error e
      | .ok rs => .ok (r :: rs)

/-- `main` from `api/main.py`: await `query_engine.aretrieve(query)`, print
the banner, then build the record list. The first component is the
diagnostic output trace (the strings written by `print`), the second the
returned value or the propagated exception. -/
def main (engine : QueryEngine) (query : String) :
    List String × Except MainError (List Record) :=
  match engine.aretrieve query with
  | .error e => ([], .error (.retrieval e))
  | .ok nodes => (["Retrieved Documents:\n"], buildRecords nodes)

/-- Failures that `search_documents` can propagate: a retrieval-service
failure, or the `IndexError` from `response.source_nodes[0]` when the
response cites no chunks. -/
inductive SearchError where
  | retrieval (e : RetrievalError)
  | indexError
deriving DecidableEq, Repr

/-- `search_documents` from `api/main.py`: await `query_engine.aquery(query)`,
print the text of the first cited chunk, return `str(response)`. -/
def search_documents (engine : QueryEngine) (query : String) :
    List String × Except SearchError String :=
  match engine.aquery query with
  | .error e => ([], .error (.retrieval e))
  | .ok resp =>
    match resp.source_nodes with
    | [] => ([], .error .indexError)
    | node :: _ => ([node.text], .ok resp.response)

/-- The pydantic request model `QueryRequest` of `api/server.py`: one
required field `query` of type `str`. -/
structure QueryRequest where
  query : String
deriving DecidableEq, Repr

/-- An incoming request body for `POST /regsearch`: the `query` field is
either absent (`none`) or present with a string value. -/
structure RequestBody where
  query : Option String
deriving DecidableEq, Repr

/-- Pydantic validation of the request body against `QueryRequest`: the
field must be present; any string value, the empty string included, is
accepted (`str` carries no length constraint). -/
def validateQueryRequest (body : RequestBody) : Option QueryRequest :=
  match body.query with
  | none => none
  | some q => some { query := q }

/-- The observable outcome of one `POST /regsearch` request. -/
inductive HttpOutcome where
  | success (records : List Record)
  | clientError
  | serverError (e : MainError)
deriving DecidableEq, Repr

/-- `search_docs` from `api/server.py`: validate the body, call `main`, and
return its records; a validation failure is a client error answered before
the handler body runs, and an exception from `main` propagates as a failed
response. -/
def search_docs (engine : QueryEngine) (body : RequestBody) :
    List String × HttpOutcome :=
  match validateQueryRequest body with
  | none => ([], .clientError)
  | some req =>
    match main engine req.query with
    | (tr, .ok results) => (tr, .success results)
    | (tr, .error e) => (tr, .serverError e)

/-- A concrete healthy engine used by witnesses: one well-formed node. -/
def nodeA : Node :=
  { text := "TOP RESULT TEXT",
    metadata := [("file_path", "/docs/a.pdf"),
                 ("last_modified_date", "2024-01-01")] }

/-- A second well-formed node with distinct content. -/
def nodeB : Node :=
  { text := "SECOND RESULT TEXT",
    metadata := [("file_path", "/docs/b.pdf"),
                 ("last_modified_date", "2024-02-02")] }

/-- A concrete engine that answers every query with two well-formed chunks
and a synthesized answer citing `nodeA`. -/
def testEngine : QueryEngine :=
  { aretrieve := fun _ => .ok [nodeA, nodeB],
    aquery := fun _ => .ok { response := "synthesized answer",
                             source_nodes := [nodeA] } }

/-- A concrete engine whose calls all fail. -/
def failEngine : QueryEngine :=
  { aretrieve := fun _ => .error (.serviceFailure "connection refused"),
    aquery := fun _ => .error (.serviceFailure "connection refused") }

/-- A concrete engine that retrieves zero chunks. -/
def emptyEngine : QueryEngine :=
  { aretrieve := fun _ => .ok [],
    aquery := fun _ => .ok { response := "no sources", source_nodes := [] } }

/-- A node with no metadata at all. -/
def badNode : Node := { text := "orphan chunk", metadata := [] }

/-- A concrete engine returning a chunk without the required metadata. -/
def badEngine : QueryEngine :=
  { aretrieve := fun _ => .ok [badNode],
    aquery := fun _ => .error (.serviceFailure "unused") }

/-! Helper lemmas about `mkRecord` and `buildRecords`. -/

theorem mkRecord_ok_fields {n : Node} {r : Record} (h : mkRecord n = .ok r) :
    r.title = "" ∧ r.author = "cdsco" ∧ r.content = n.text ∧
    n.getMeta "file_path" = some r.url ∧
    n.getMeta "last_modified_date" = some r.published_date := by
  cases hf : n.getMeta "file_path" with
  | none => simp [mkRecord, hf] at h
  | some fp =>
    cases hl : n.getMeta "last_modified_date" with
    | none => simp [mkRecord, hf, hl] at h
    | some lm =>
      simp [mkRecord, hf, hl] at h
      subst h
      refine ⟨rfl, rfl, rfl, ?_, ?_⟩
      · simp [hf]
      · simp [hl]

theorem mkRecord_error_keyError {n : Node} {e : MainError}
    (h : mkRecord n = .error e) : ∃ k, e = .keyError k := by
  cases hf : n.getMeta "file_path" with
  | none =>
    simp [mkRecord, hf] at h
    exact ⟨"file_path", h.symm⟩
  | some fp =>
    cases hl : n.getMeta "last_modified_date" with
    | none =>
      simp [mkRecord, hf, hl] at h
      exact ⟨"last_modified_date", h.symm⟩
    | some lm => simp [mkRecord, hf, hl] at h

theorem mkRecord_missing {n : Node}
    (h : n.getMeta "file_path" = none ∨ n.getMeta "last_modified_date" = none) :
    ∃ k, mkRecord n = .error (.keyError k) := by
  rcases h with hf | hl
  · exact ⟨"file_path", by simp [mkRecord, hf]⟩
  · cases hf : n.getMeta "file_path" with
    | none => exact ⟨"file_path", by simp [mkRecord, hf]⟩
    | some fp => exact ⟨"last_modified_date", by simp [mkRecord, hf, hl]⟩

theorem mkRecord_ok_of_keys {n : Node}
    (hf : (n.getMeta "file_path").isSome)
    (hl : (n.getMeta "last_modified_date").isSome) :
    ∃ r, mkRecord n = .ok r := by
  cases hfp : n.getMeta "file_path" with
  | none => rw [hfp] at hf; simp at hf
  | some fp =>
    cases hlm : n.getMeta "last_modified_date" with
    | none => rw [hlm] at hl; simp at hl
    | some lm =>
      exact ⟨{ url := fp, title := "", content := n.text,
               published_date := lm, author := "cdsco" },
             by simp [mkRecord, hfp, hlm]⟩

theorem buildRecords_cons_ok {n : Node} {ns : List Node} {rs : List Record}
    (h : buildRecords (n :: ns) = .ok rs) :
    ∃ r rs2, mkRecord n = .ok r ∧ buildRecords ns = .ok rs2 ∧ rs = r :: rs2 := by
  cases hm : mkRecord n with
  | error e => simp [buildRecords, hm] at h
  | ok r =>
    cases hb : buildRecords ns with
    | error e => simp [buildRecords, hm, hb] at h
    | ok rs2 =>
      simp [buildRecords, hm, hb] at h
      exact ⟨r, rs2, rfl, rfl, h.symm⟩

theorem buildRecords_mem {ns : List Node} {rs : List Record}
    (h : buildRecords ns = .ok rs) {r : Record} (hr : r ∈ rs) :
    ∃ n ∈ ns, mkRecord n = .ok r := by
  induction ns generalizing rs with
  | nil =>
    simp [buildRecords] at h
    subst h
    simp at hr
  | cons n ns ih =>
    obtain ⟨r0, rs2, hm, hb, hrs⟩ := buildRecords_cons_ok h
    subst hrs
    rcases List.mem_cons.mp hr with h0 | h2
    · exact ⟨n, List.mem_cons_self n ns, h0 ▸ hm⟩
    · obtain ⟨n2, hn2, hmk⟩ := ih hb h2
      exact ⟨n2, List.mem_cons_of_mem n hn2, hmk⟩

theorem buildRecords_length {ns : List Node} {rs : List Record}
    (h : buildRecords ns = .ok rs) : rs.length = ns.length := by
  induction ns generalizing rs with
  | nil =>
    simp [buildRecords] at h
    subst h
    rfl
  | cons n ns ih =>
    obtain ⟨r0, rs2, _, hb, hrs⟩ := buildRecords_cons_ok h
    subst hrs
    simp [ih hb]

theorem buildRecords_get? {ns : List Node} {rs : List Record}
    (h : buildRecords ns = .ok rs) (i : Nat) :
    rs.get? i = (ns.get? i).bind (fun n => (mkRecord n).toOption) := by
  induction ns generalizing rs i with
  | nil =>
    simp [buildRecords] at h
    subst h
    simp
  | cons n ns ih =>
    obtain ⟨r0, rs2, hm, hb, hrs⟩ := buildRecords_cons_ok h
    subst hrs
    cases i with
    | zero => simp [hm, Except.toOption]
    | succ j => simpa using ih hb j

theorem buildRecords_ok_of_keys {ns : List Node}
    (h : ∀ n ∈ ns, (n.getMeta "file_path").isSome ∧
      (n.getMeta "last_modified_date").isSome) :
    ∃ rs, buildRecords ns = .ok rs := by
  induction ns with
  | nil => exact ⟨[], rfl⟩
  | cons n ns ih =>
    obtain ⟨r, hr⟩ := mkRecord_ok_of_keys
      (h n (List.mem_cons_self n ns)).1 (h n (List.mem_cons_self n ns)).2
    obtain ⟨rs, hrs⟩ := ih (fun m hm => h m (List.mem_cons_of_mem n hm))
    exact ⟨r :: rs, by simp [buildRecords, hr, hrs]⟩

theorem buildRecords_error_of_missing {ns : List Node} {n : Node}
    (hn : n ∈ ns)
    (h : n.getMeta "file_path" = none ∨ n.getMeta "last_modified_date" = none) :
    ∃ k, buildRecords ns = .error (.keyError k) := by
  induction ns with
  | nil => simp at hn
  | cons m ms ih =>
    rcases List.mem_cons.mp hn with h0 | h2
    · subst h0
      obtain ⟨k, hk⟩ := mkRecord_missing h
      exact ⟨k, by simp [buildRecords, hk]⟩
    · cases hm : mkRecord m with
      | error e =>
        obtain ⟨k, hk⟩ := mkRecord_error_keyError hm
        exact ⟨k, by simp [buildRecords, hm, hk]⟩
      | ok r =>
        obtain ⟨k, hk⟩ := ih h2
        exact ⟨k, by simp [buildRecords, hm, hk]⟩

/-! The claims. -/

/-- C1: for every non-empty query, when the external engine honours its
configuration (at most `similarity_top_k` chunks, each with non-empty text, a
non-empty `file_path` metadata entry and a `last_modified_date` metadata
entry), the retrieve operation `main` succeeds with at most 5 records, each
with non-empty `content` and non-empty `url`. -/
theorem c1_topk_bound_nonempty_fields (engine : QueryEngine) (q : String)
    (nodes : List Node) (_hq : q ≠ "")
    (hret : engine.aretrieve q = .ok nodes)
    (hlen : nodes.length ≤ query_engine_args.similarity_top_k)
    (hwf : ∀ n ∈ nodes, n.text ≠ "" ∧
      (∃ fp, n.getMeta "file_path" = some fp ∧ fp ≠ "") ∧
      (∃ lm, n.getMeta "last_modified_date" = some lm)) :
    ∃ recs, (main engine q).2 = .ok recs ∧ recs.length ≤ 5 ∧
      ∀ r ∈ recs, r.content ≠ "" ∧ r.url ≠ "" := by
  obtain ⟨rs, hrs⟩ := @buildRecords_ok_of_keys nodes (fun n hn => by
    obtain ⟨-, ⟨fp, hfp, -⟩, ⟨lm, hlm⟩⟩ := hwf n hn
    exact ⟨by simp [hfp], by simp [hlm]⟩)
  refine ⟨rs, by simp [main, hret, hrs], ?_, ?_⟩
  · have hlen2 := buildRecords_length hrs
    have h5 : query_engine_args.similarity_top_k = 5 := rfl
    rw [h5] at hlen
    omega
  · intro r hr
    obtain ⟨n, hn, hmk⟩ := buildRecords_mem hrs hr
    obtain ⟨-, -, hcontent, hurl, -⟩ := mkRecord_ok_fields hmk
    obtain ⟨htext, ⟨fp, hfp, hfpne⟩, -⟩ := hwf n hn
    constructor
    · rw [hcontent]; exact htext
    · rw [hfp] at hurl
      cases hurl
      exact hfpne

/-- Witness for C1 at a concrete engine returning two well-formed chunks. -/
theorem c1_witness :
    ∃ recs, (main testEngine "what are fermions").2 = .ok recs ∧
      recs.length ≤ 5 ∧ ∀ r ∈ recs, r.content ≠ "" ∧ r.url ≠ "" := by
  apply c1_topk_bound_nonempty_fields testEngine "what are fermions"
    [nodeA, nodeB] (by decide) rfl (by decide)
  intro n hn
  rcases List.mem_cons.mp hn with h0 | h2
  · subst h0
    exact ⟨by decide, ⟨"/docs/a.pdf", by decide, by decide⟩,
           ⟨"2024-01-01", by decide⟩⟩
  · rcases List.mem_cons.mp h2 with h0 | h3
    · subst h0
      exact ⟨by decide, ⟨"/docs/b.pdf", by decide, by decide⟩,
             ⟨"2024-02-02", by decide⟩⟩
    · exact absurd h3 (List.not_mem_nil n)

/-- C2: every record of a successful retrieve has `title = ""` and
`author = "cdsco"`, for every engine behaviour and every query. -/
theorem c2_title_empty_author_constant (engine : QueryEngine) (q : String)
    (tr : List String) (recs : List Record)
    (h : main engine q = (tr, .ok recs)) :
    ∀ r ∈ recs, r.title = "" ∧ r.author = "cdsco" := by
  intro r hr
  cases hret : engine.aretrieve q with
  | error e => simp [main, hret] at h
  | ok nodes =>
    simp [main, hret] at h
    obtain ⟨n, -, hmk⟩ := buildRecords_mem h.2 hr
    obtain ⟨ht, ha, -⟩ := mkRecord_ok_fields hmk
    exact ⟨ht, ha⟩

/-- Witness for C2 at a concrete engine and the first returned record. -/
theorem c2_witness :
    ({ url := "/docs/a.pdf", title := "", content := "TOP RESULT TEXT",
       published_date := "2024-01-01", author := "cdsco" } : Record).title = "" ∧
    ({ url := "/docs/a.pdf", title := "", content := "TOP RESULT TEXT",
       published_date := "2024-01-01", author := "cdsco" } : Record).author =
      "cdsco" :=
  c2_title_empty_author_constant testEngine "q" ["Retrieved Documents:\n"]
    [{ url := "/docs/a.pdf", title := "", content := "TOP RESULT TEXT",
       published_date := "2024-01-01", author := "cdsco" },
     { url := "/docs/b.pdf", title := "", content := "SECOND RESULT TEXT",
       published_date := "2024-02-02", author := "cdsco" }] rfl
    { url := "/docs/a.pdf", title := "", content := "TOP RESULT TEXT",
      published_date := "2024-01-01", author := "cdsco" }
    (List.mem_cons_self _ _)

/-- C3 counterexample: a body whose `query` field is present but equal to the
empty string passes pydantic validation, the retrieval service is invoked
(the outcome depends on the engine), and the facade answers with a success,
not a client error — refuting the claim for the empty-query case. -/
theorem c3_counterexample :
    validateQueryRequest { query := some "" } = some { query := "" } ∧
    (search_docs testEngine { query := some "" }).2 ≠ HttpOutcome.clientError ∧
    search_docs testEngine { query := some "" } ≠
      search_docs failEngine { query := some "" } := by
  refine ⟨rfl, by decide, by decide⟩

/-- C3 amended: a request body with the `query` field missing is rejected
with a client error before any retrieval-service call (the answer is the
same for every engine); a body whose `query` field is present — the empty
string included — is never answered with a client error: the handler runs
and calls the retrieval service. -/
theorem c3_missing_query_client_error (e1 e2 : QueryEngine)
    (body : RequestBody) :
    (body.query = none → search_docs e1 body = ([], .clientError) ∧
      search_docs e1 body = search_docs e2 body) ∧
    (∀ q, body.query = some q →
      (search_docs e1 body).2 ≠ HttpOutcome.clientError) := by
  constructor
  · intro hnone
    have h1 : search_docs e1 body = ([], .clientError) := by
      simp [search_docs, validateQueryRequest, hnone]
    have h2 : search_docs e2 body = ([], .clientError) := by
      simp [search_docs, validateQueryRequest, hnone]
    exact ⟨h1, h1.trans h2.symm⟩
  · intro q hsome
    cases hm : main e1 q with
    | mk tr res =>
      cases res with
      | ok results =>
        simp [search_docs, validateQueryRequest, hsome, hm]
      | error e =>
        simp [search_docs, validateQueryRequest, hsome, hm]

/-- Witness for the amended C3: a missing field is a client error for any
engine; a present empty field is not a client error. -/
theorem c3_witness :
    search_docs testEngine { query := none } = ([], .clientError) ∧
    (search_docs testEngine { query := some "" }).2 ≠
      HttpOutcome.clientError :=
  ⟨((c3_missing_query_client_error testEngine failEngine
      { query := none }).1 rfl).1,
   (c3_missing_query_client_error testEngine failEngine
      { query := some "" }).2 "" rfl⟩

/-- C4: a successful retrieve returns exactly one record per retrieved chunk,
in the same relative order: the record at every position `i` is built from
the chunk at position `i` — no reordering, no re-ranking, no deduplication. -/
theorem c4_order_preserved (engine : QueryEngine) (q : String)
    (nodes : List Node) (recs : List Record)
    (hret : engine.aretrieve q = .ok nodes)
    (hmain : (main engine q).2 = .ok recs) :
    recs.length = nodes.length ∧
    ∀ i, recs.get? i = (nodes.get? i).bind (fun n => (mkRecord n).toOption) := by
  have hb : buildRecords nodes = .ok recs := by
    simpa [main, hret] using hmain
  exact ⟨buildRecords_length hb, buildRecords_get? hb⟩

/-- Witness for C4 at a concrete engine with two chunks. -/
theorem c4_witness :
    ∃ recs, (main testEngine "q").2 = .ok recs ∧
      recs.length = 2 ∧
      recs.get? 0 = (mkRecord nodeA).toOption ∧
      recs.get? 1 = (mkRecord nodeB).toOption := by
  refine ⟨_, rfl, ?_, ?_, ?_⟩
  · exact (c4_order_preserved testEngine "q" [nodeA, nodeB] _ rfl rfl).1
  · exact (c4_order_preserved testEngine "q" [nodeA, nodeB] _ rfl rfl).2 0
  · exact (c4_order_preserved testEngine "q" [nodeA, nodeB] _ rfl rfl).2 1

/-- C5: when the retrieval-service call fails, `main` propagates the failure
immediately (nothing printed, no retry, no recovery) and the facade answers
the HTTP caller with a failed response carrying that same error. -/
theorem c5_failure_propagates (engine : QueryEngine) (q : String)
    (e : RetrievalError) (h : engine.aretrieve q = .error e) :
    main engine q = ([], .error (.retrieval e)) ∧
    ∀ body : RequestBody, body.query = some q →
      search_docs engine body = ([], .serverError (.retrieval e)) := by
  have hm : main engine q = ([], .error (.retrieval e)) := by
    simp [main, h]
  refine ⟨hm, ?_⟩
  intro body hq
  simp [search_docs, validateQueryRequest, hq, hm]

/-- Witness for C5 at a concrete failing engine. -/
theorem c5_witness :
    main failEngine "q" =
      ([], .error (.retrieval (.serviceFailure "connection refused"))) ∧
    search_docs failEngine { query := some "q" } =
      ([], .serverError (.retrieval (.serviceFailure "connection refused"))) :=
  ⟨(c5_failure_propagates failEngine "q"
      (.serviceFailure "connection refused") rfl).1,
   (c5_failure_propagates failEngine "q"
      (.serviceFailure "connection refused") rfl).2 { query := some "q" } rfl⟩

/-- C6: the retrieve operation is a pure function of the engine response:
two invocations on the same query whose underlying retrieval calls answer
identically return the same trace and the same ordered record list. -/
theorem c6_deterministic (e1 e2 : QueryEngine) (q : String)
    (h : e1.aretrieve q = e2.aretrieve q) :
    main e1 q = main e2 q := by
  unfold main
  rw [h]

/-- Witness for C6: two engines agreeing on the retrieval answer for a
query give the same result of `main` there. -/
theorem c6_witness :
    main testEngine "same query" =
      main { aretrieve := fun _ => .ok [nodeA, nodeB],
             aquery := fun _ => .error (.serviceFailure "other") }
        "same query" :=
  c6_deterministic testEngine _ "same query" rfl

/-- C7 counterexample: a retrieve call that succeeds with `nodeA` as its
top-ranked chunk writes only the fixed banner to the diagnostic stream; the
source text of the top result is not written at all by the retrieve
operation — refuting the claim. (That print lives in the unused
`search_documents` operation.) -/
theorem c7_counterexample :
    (main testEngine "q2").2 ≠ .error (.retrieval (.serviceFailure "down")) ∧
    (main testEngine "q2").1 = ["Retrieved Documents:\n"] ∧
    nodeA.text ∉ (main testEngine "q2").1 := by
  refine ⟨?_, rfl, by decide⟩
  intro h
  exact Except.noConfusion h

/-- C7 amended: on a successful retrieval the retrieve operation writes
exactly the fixed banner to the diagnostic stream; the source text of the
single top-ranked chunk is written by the other operation,
`search_documents`, before it returns its answer. -/
theorem c7_diagnostic_output (engine : QueryEngine) (q : String)
    (nodes : List Node) (hret : engine.aretrieve q = .ok nodes) :
    (main engine q).1 = ["Retrieved Documents:\n"] ∧
    ∀ resp n rest, engine.aquery q = .ok resp →
      resp.source_nodes = n :: rest →
      (search_documents engine q).1 = [n.text] := by
  constructor
  · simp [main, hret]
  · intro resp n rest hq hsrc
    simp [search_documents, hq, hsrc]

/-- Witness for the amended C7 at a concrete engine. -/
theorem c7_witness :
    (main testEngine "q3").1 = ["Retrieved Documents:\n"] ∧
    (search_documents testEngine "q3").1 = [nodeA.text] :=
  ⟨(c7_diagnostic_output testEngine "q3" [nodeA, nodeB] rfl).1,
   (c7_diagnostic_output testEngine "q3" [nodeA, nodeB] rfl).2
     { response := "synthesized answer", source_nodes := [nodeA] }
     nodeA [] rfl rfl⟩

/-- C8: the query engine is configured with a citation chunk size of 1024
and a top-k of 5; the HTTP facade depends only on the raw-retrieve entry
point of the engine (changing the synthesize entry point cannot change any
response), while `search_documents` — the second, unwired operation —
depends only on the synthesize entry point. -/
theorem c8_second_operation (e1 e2 : QueryEngine) (body : RequestBody)
    (q : String) :
    query_engine_args.citation_chunk_size = 1024 ∧
    query_engine_args.similarity_top_k = 5 ∧
    (e1.aretrieve = e2.aretrieve → search_docs e1 body = search_docs e2 body) ∧
    (e1.aquery = e2.aquery → search_documents e1 q = search_documents e2 q) := by
  refine ⟨rfl, rfl, ?_, ?_⟩
  · intro h
    unfold search_docs main
    rw [h]
  · intro h
    unfold search_documents
    rw [h]

/-- Witness for C8: the facade ignores a change of the synthesize entry
point, and `search_documents` ignores a change of the retrieve entry point. -/
theorem c8_witness :
    query_engine_args.citation_chunk_size = 1024 ∧
    query_engine_args.similarity_top_k = 5 ∧
    search_docs testEngine { query := some "q" } =
      search_docs { aretrieve := testEngine.aretrieve,
                    aquery := fun _ => .error (.serviceFailure "changed") }
        { query := some "q" } ∧
    search_documents testEngine "q" =
      search_documents { aretrieve := fun _ => .error (.serviceFailure "x"),
                         aquery := testEngine.aquery } "q" :=
  ⟨(c8_second_operation testEngine testEngine { query := some "q" } "q").1,
   (c8_second_operation testEngine testEngine { query := some "q" } "q").2.1,
   (c8_second_operation testEngine
     { aretrieve := testEngine.aretrieve,
       aquery := fun _ => .error (.serviceFailure "changed") }
     { query := some "q" } "q").2.2.1 rfl,
   (c8_second_operation testEngine
     { aretrieve := fun _ => .error (.serviceFailure "x"),
       aquery := testEngine.aquery }
     { query := some "q" } "q").2.2.2 rfl⟩

/-- C9: a retrieval that succeeds with zero chunks is a successful empty
result: the banner is printed and the empty list is returned with no error
and no empty-result check. -/
theorem c9_empty_retrieval_ok (engine : QueryEngine) (q : String)
    (h : engine.aretrieve q = .ok []) :
    main engine q = (["Retrieved Documents:\n"], .ok []) := by
  simp [main, h, buildRecords]

/-- Witness for C9 at a concrete engine retrieving nothing. -/
theorem c9_witness :
    main emptyEngine "anything" = (["Retrieved Documents:\n"], .ok []) :=
  c9_empty_retrieval_ok emptyEngine "anything" rfl

/-- C10: if any retrieved chunk lacks the `file_path` or the
`last_modified_date` metadata key, the retrieve operation fails with a
`KeyError` from the unguarded dictionary lookup — no default value is
substituted. -/
theorem c10_missing_metadata_key_error (engine : QueryEngine) (q : String)
    (nodes : List Node) (n : Node)
    (hret : engine.aretrieve q = .ok nodes) (hn : n ∈ nodes)
    (hmiss : n.getMeta "file_path" = none ∨
      n.getMeta "last_modified_date" = none) :
    ∃ k, (main engine q).2 = .error (.keyError k) := by
  obtain ⟨k, hk⟩ := buildRecords_error_of_missing hn hmiss
  exact ⟨k, by simp [main, hret, hk]⟩

/-- Witness for C10 at a concrete engine returning a chunk with no
metadata. -/
theorem c10_witness :
    ∃ k, (main badEngine "q").2 = .error (.keyError k) :=
  c10_missing_metadata_key_error badEngine "q" [badNode] badNode rfl
    (List.mem_singleton.mpr rfl) (Or.inl rfl)

end AskRiti
